import Mathlib

/-!
Shallow embedding of `gamepad2midi` (src/src/main.rs): the value-normalizer
functions `abs_float_to_midi` and `centered_float_to_midi`, the mapping
configuration (`Config::default`), the event-translation match in `main`,
and the dispatch loop's framing-and-send behaviour.

Modelling conventions:
- `f32` values are modelled by `F32`: a finite rational, or one of the
  non-finite values NaN / +inf / -inf.  Every finite `f32` is a rational, and
  the two arithmetic steps the program performs (multiplication by the
  power-of-two constants `128.0` / `64.0`, and the addition `64.0 + _`) are
  modelled as exact rational arithmetic.  Multiplication of a finite `f32` by
  a power of two is exact in IEEE-754 (absent overflow; an overflow to +inf
  and the corresponding huge exact rational saturate to the same byte under
  the `as u8` cast), so `abs_float_to_midi` is modelled exactly; for
  `centered_float_to_midi` the `f32` sum `64.0 + pos * 64.0` is idealized as
  the exact rational sum.
- Rust's saturating float-to-`u8` cast (`as u8`: truncate toward zero,
  saturate into [0, 255], NaN to 0) is `F32.asU8`.
- Machine bytes are `Nat`s; `wmidi::U7::try_from` is `U7.tryFrom`, returning
  an `Option`; a Rust `.unwrap()` on a `try_into` that provably succeeds is
  modelled with `Option.getD _ 0`.
- The `gilrs` `Button` / `Axis` / `EventType` enumerations and the `wmidi`
  `Note` / `Channel` / `MidiMessage` types are reproduced as closed inductive
  types (only the `Note` constructors the configuration mentions are listed).
- The two `HashMap`s keyed by `Button` and the one keyed by `Axis` are
  modelled as association lists with `List.lookup`; the source builds them
  from literal vectors with pairwise-distinct keys, for which `HashMap::get`
  and association-list lookup agree.
-/

/-- Model of an `f32` value: a finite rational or a non-finite value. -/
inductive F32 where
  | finite : ℚ → F32
  | inf : F32
  | neginf : F32
  | nan : F32
deriving DecidableEq, Repr

/-- Multiplication of an `f32` by a positive finite constant (the program only
uses the power-of-two constants `128.0` and `64.0`, for which the finite case
is exact in IEEE-754 absent overflow). -/
def F32.mulConst (c : ℚ) : F32 → F32
  | .finite q => .finite (q * c)
  | .inf => .inf
  | .neginf => .neginf
  | .nan => .nan

/-- Addition of a positive finite constant to an `f32` (the program only uses
`64.0 + _`; the finite case is idealized as exact rational addition). -/
def F32.addConst (c : ℚ) : F32 → F32
  | .finite q => .finite (c + q)
  | .inf => .inf
  | .neginf => .neginf
  | .nan => .nan

/-- Rust's saturating `as u8` cast on an `f32`: truncate toward zero and
saturate into [0, 255]; NaN casts to 0, +inf to 255, -inf to 0.  (For a
rational `q`, `Int.toNat ⌊q⌋` is 0 whenever `q < 1`, which coincides with
truncation toward zero composed with the lower saturation bound.) -/
def F32.asU8 : F32 → ℕ
  | .finite q => min 255 (Int.toNat ⌊q⌋)
  | .inf => 255
  | .neginf => 0
  | .nan => 0

namespace U7

/-- `wmidi::U7::try_from` on a byte: succeeds exactly on the values ≤ 127. -/
def tryFrom (b : ℕ) : Option ℕ :=
  if b ≤ 127 then some b else none

end U7

/-- `abs_float_to_midi` (src/src/main.rs lines 148-154): `pos * 128.0`,
saturating cast to `u8`, then `.max(0).min(127)`, then `U7::try_from`.
The Rust function ends with `.unwrap()`; the `Option` is kept here so that
infallibility is a provable statement rather than an assumption. -/
def abs_float_to_midi (pos : F32) : Option ℕ :=
  U7.tryFrom (min (max ((F32.mulConst 128 pos).asU8) 0) 127)

/-- `centered_float_to_midi` (src/src/main.rs lines 156-162): `64.0 + pos *
64.0`, saturating cast to `u8`, then `.max(0).min(127)`, then `U7::try_from`
(the `Option` kept as above). -/
def centered_float_to_midi (pos : F32) : Option ℕ :=
  U7.tryFrom (min (max ((F32.addConst 64 (F32.mulConst 64 pos)).asU8) 0) 127)

/-- `abs_float_to_midi` with the `.max(0)` step removed, for the
redundant-lower-bound comparison. -/
def abs_float_to_midi_nomax (pos : F32) : Option ℕ :=
  U7.tryFrom (min ((F32.mulConst 128 pos).asU8) 127)

/-- `centered_float_to_midi` with the `.max(0)` step removed, for the
redundant-lower-bound comparison. -/
def centered_float_to_midi_nomax (pos : F32) : Option ℕ :=
  U7.tryFrom (min ((F32.addConst 64 (F32.mulConst 64 pos)).asU8) 127)

/-- The value carried by `abs_float_to_midi` after the Rust `.unwrap()`. -/
def abs_float_to_midi_val (pos : F32) : ℕ :=
  (abs_float_to_midi pos).getD 0

/-- The value carried by `centered_float_to_midi` after the Rust `.unwrap()`. -/
def centered_float_to_midi_val (pos : F32) : ℕ :=
  (centered_float_to_midi pos).getD 0

/-- The spec's formula for the unsigned normalizer, written from its words:
`clamp(round(pos * 128), 0, 127)` (for comparison against the source). -/
def spec_abs_round (q : ℚ) : ℕ :=
  Int.toNat (min (max (round (q * 128)) 0) 127)

/-- The spec's formula for the centered normalizer, written from its words:
`clamp(round(64 + pos * 64), 0, 127)` (for comparison against the source). -/
def spec_centered_round (q : ℚ) : ℕ :=
  Int.toNat (min (max (round (64 + q * 64)) 0) 127)

/-- The `gilrs::Button` enumeration. -/
inductive Button where
  | South | East | North | West | C | Z
  | LeftTrigger | LeftTrigger2 | RightTrigger | RightTrigger2
  | Select | Start | Mode
  | LeftThumb | RightThumb
  | DPadUp | DPadDown | DPadLeft | DPadRight
  | Unknown
deriving DecidableEq, BEq, Repr

/-- The `gilrs::Axis` enumeration. -/
inductive Axis where
  | LeftStickX | LeftStickY | LeftZ
  | RightStickX | RightStickY | RightZ
  | DPadX | DPadY
  | UnknownAxis
deriving DecidableEq, BEq, Repr

/-- The `wmidi::Note` values the configuration mentions (closed list of the
notes named in `Config::default`). -/
inductive Note where
  | C1 | D1 | E1 | F1
  | A2 | B2
  | C3 | D3 | E3
  | A4 | B4 | C4 | D4
deriving DecidableEq, BEq, Repr

/-- MIDI note number of each configured `wmidi::Note` (wmidi numbers the 128
notes from CMinus1 = 0 up to G9 = 127, so C4 = 60). -/
def Note.code : Note → ℕ
  | .C1 => 24 | .D1 => 26 | .E1 => 28 | .F1 => 29
  | .A2 => 45 | .B2 => 47
  | .C3 => 48 | .D3 => 50 | .E3 => 52
  | .A4 => 69 | .B4 => 71 | .C4 => 60 | .D4 => 62

/-- The `wmidi::Channel` enumeration (16 channels). -/
inductive Channel where
  | Ch1 | Ch2 | Ch3 | Ch4 | Ch5 | Ch6 | Ch7 | Ch8
  | Ch9 | Ch10 | Ch11 | Ch12 | Ch13 | Ch14 | Ch15 | Ch16
deriving DecidableEq, BEq, Repr

/-- Wire index of a `wmidi::Channel` (Ch1 = 0, …, Ch16 = 15). -/
def Channel.index : Channel → ℕ
  | .Ch1 => 0 | .Ch2 => 1 | .Ch3 => 2 | .Ch4 => 3
  | .Ch5 => 4 | .Ch6 => 5 | .Ch7 => 6 | .Ch8 => 7
  | .Ch9 => 8 | .Ch10 => 9 | .Ch11 => 10 | .Ch12 => 11
  | .Ch13 => 12 | .Ch14 => 13 | .Ch15 => 14 | .Ch16 => 15

/-- The `wmidi::MidiMessage` variants the program constructs.  A
`ControlNumber` is a validated 7-bit byte, modelled as `ℕ`. -/
inductive MidiMessage where
  | NoteOn (ch : Channel) (note : Note) (velocity : ℕ)
  | NoteOff (ch : Channel) (note : Note) (velocity : ℕ)
  | ControlChange (ch : Channel) (cc : ℕ) (value : ℕ)
deriving DecidableEq, BEq, Repr

/-- The channel field every constructed message carries. -/
def MidiMessage.channel : MidiMessage → Channel
  | .NoteOn ch _ _ => ch
  | .NoteOff ch _ _ => ch
  | .ControlChange ch _ _ => ch

/-- `MidiMessage::bytes_size` for the three constructed variants (each is a
three-byte channel-voice message). -/
def MidiMessage.bytesSize : MidiMessage → ℕ
  | .NoteOn _ _ _ => 3
  | .NoteOff _ _ _ => 3
  | .ControlChange _ _ _ => 3

/-- `MidiMessage::copy_to_slice`: the wire framing of each constructed
message (status byte carrying the channel index, then the two data bytes). -/
def MidiMessage.toBytes : MidiMessage → List ℕ
  | .NoteOn ch n v => [0x90 + ch.index, n.code, v]
  | .NoteOff ch n v => [0x80 + ch.index, n.code, v]
  | .ControlChange ch c v => [0xB0 + ch.index, c, v]

/-- The `gilrs::EventType` enumeration (payloads the program reads: the
control identifier and, for the analog kinds, the float position; the `code`
argument is only logged). -/
inductive EventType where
  | ButtonPressed (btn : Button) (code : ℕ)
  | ButtonRepeated (btn : Button) (code : ℕ)
  | ButtonReleased (btn : Button) (code : ℕ)
  | ButtonChanged (btn : Button) (pos : F32) (code : ℕ)
  | AxisChanged (ax : Axis) (pos : F32) (code : ℕ)
  | Connected
  | Disconnected
  | Dropped

/-- `Config` (src/src/main.rs lines 8-15), with the three `HashMap`s as
association lists. -/
structure Config where
  output_port_name : String
  output_midi_channel : Channel
  keys : List (Button × Note)
  analog_button_ccs : List (Button × ℕ)
  axis_ccs : List (Axis × ℕ)

/-- `Config::default` (src/src/main.rs lines 17-53): the hard-coded mapping
tables.  The controller numbers are built through `U7.tryFrom … |>.getD 0`,
mirroring the `u8::try_into().unwrap()` calls. -/
def Config.default : Config where
  output_port_name := "xbox"
  output_midi_channel := Channel.Ch15
  keys :=
    [(Button.North, Note.C1), (Button.East, Note.D1), (Button.South, Note.E1),
     (Button.West, Note.F1), (Button.LeftTrigger, Note.A2),
     (Button.RightTrigger, Note.B2), (Button.Start, Note.C3),
     (Button.Select, Note.D3), (Button.Mode, Note.E3),
     (Button.DPadUp, Note.A4), (Button.DPadDown, Note.B4),
     (Button.DPadLeft, Note.C4), (Button.DPadRight, Note.D4)]
  analog_button_ccs :=
    [(Button.LeftTrigger2, (U7.tryFrom 1).getD 0),
     (Button.RightTrigger2, (U7.tryFrom 2).getD 0)]
  axis_ccs :=
    [(Axis.LeftStickX, (U7.tryFrom 3).getD 0),
     (Axis.LeftStickY, (U7.tryFrom 4).getD 0),
     (Axis.RightStickX, (U7.tryFrom 5).getD 0),
     (Axis.RightStickY, (U7.tryFrom 6).getD 0)]

/-- The event-translation match in `main` (src/src/main.rs lines 78-135):
one abstract input event in, zero or one MIDI message out.  The fixed
velocity is `80u8.try_into().unwrap()`. -/
def translateEvent (cfg : Config) (event : EventType) : Option MidiMessage :=
  match event with
  | .ButtonChanged btn pos _ =>
      match cfg.analog_button_ccs.lookup btn with
      | some cc =>
          some (.ControlChange cfg.output_midi_channel cc (abs_float_to_midi_val pos))
      | none => none
  | .ButtonPressed btn _ =>
      match cfg.keys.lookup btn with
      | some note =>
          some (.NoteOn cfg.output_midi_channel note ((U7.tryFrom 80).getD 0))
      | none => none
  | .ButtonReleased btn _ =>
      match cfg.keys.lookup btn with
      | some note =>
          some (.NoteOff cfg.output_midi_channel note ((U7.tryFrom 80).getD 0))
      | none => none
  | .AxisChanged ax pos _ =>
      match cfg.axis_ccs.lookup ax with
      | some cc =>
          some (.ControlChange cfg.output_midi_channel cc (centered_float_to_midi_val pos))
      | none => none
  | _ => none

/-- One pass of the dispatch loop (src/src/main.rs lines 76-145) over the
events the source currently yields: each event is translated; when a message
is produced and a connection exists, the message is framed into a buffer of
exactly `bytes_size` bytes and sent; with no connection the message is
dropped.  The returned list is the sequence of buffers handed to the
transport, in send order. -/
def dispatchEvents (cfg : Config) (connected : Bool) : List EventType → List (List ℕ)
  | [] => []
  | e :: rest =>
      match translateEvent cfg e with
      | some mm =>
          if connected then mm.toBytes :: dispatchEvents cfg connected rest
          else dispatchEvents cfg connected rest
      | none => dispatchEvents cfg connected rest

/-! ## Evaluation helpers -/

/-- Floor of a rational pinned between consecutive integers. -/
theorem ratFloor_eq (q : ℚ) (z : ℤ) (h1 : (z : ℚ) ≤ q) (h2 : q < z + 1) : ⌊q⌋ = z :=
  Int.floor_eq_iff.mpr ⟨h1, h2⟩

/-- Rounding of a rational pinned by its half-offset floor. -/
theorem ratRound_eq (q : ℚ) (z : ℤ) (h1 : (z : ℚ) ≤ q + 1 / 2) (h2 : q + 1 / 2 < z + 1) :
    round q = z := by
  rw [round_eq]
  exact ratFloor_eq _ _ h1 h2

/-- Closed form of `abs_float_to_midi` on finite inputs: saturating
truncation of `pos * 128`, clamped to 127. -/
theorem abs_eval (q : ℚ) :
    abs_float_to_midi (F32.finite q) = some (min 127 (Int.toNat ⌊q * 128⌋)) := by
  simp only [abs_float_to_midi, F32.mulConst, F32.asU8, U7.tryFrom]
  generalize Int.toNat ⌊q * 128⌋ = n
  rw [show min (max (min 255 n) 0) 127 = min 127 n by omega]
  exact if_pos (Nat.min_le_left 127 n)

/-- Closed form of `centered_float_to_midi` on finite inputs: saturating
truncation of `64 + pos * 64`, clamped to 127. -/
theorem centered_eval (q : ℚ) :
    centered_float_to_midi (F32.finite q) = some (min 127 (Int.toNat ⌊64 + q * 64⌋)) := by
  simp only [centered_float_to_midi, F32.mulConst, F32.addConst, F32.asU8, U7.tryFrom]
  generalize Int.toNat ⌊64 + q * 64⌋ = n
  rw [show min (max (min 255 n) 0) 127 = min 127 n by omega]
  exact if_pos (Nat.min_le_left 127 n)

/-- `abs_float_to_midi` always succeeds with a 7-bit value. -/
theorem abs_isSome (pos : F32) : ∃ v, abs_float_to_midi pos = some v ∧ v ≤ 127 := by
  cases pos with
  | finite q => exact ⟨_, abs_eval q, Nat.min_le_left _ _⟩
  | inf => exact ⟨127, rfl, by omega⟩
  | neginf => exact ⟨0, rfl, by omega⟩
  | nan => exact ⟨0, rfl, by omega⟩

/-- `centered_float_to_midi` always succeeds with a 7-bit value. -/
theorem centered_isSome (pos : F32) :
    ∃ v, centered_float_to_midi pos = some v ∧ v ≤ 127 := by
  cases pos with
  | finite q => exact ⟨_, centered_eval q, Nat.min_le_left _ _⟩
  | inf => exact ⟨127, rfl, by omega⟩
  | neginf => exact ⟨0, rfl, by omega⟩
  | nan => exact ⟨0, rfl, by omega⟩

/-- `abs_float_to_midi` at 0. -/
theorem abs_zero_eval : abs_float_to_midi (F32.finite 0) = some 0 := by
  rw [abs_eval, show (0 : ℚ) * 128 = 0 by norm_num, Int.floor_zero]
  rfl

/-- `abs_float_to_midi` at 1. -/
theorem abs_one_eval : abs_float_to_midi (F32.finite 1) = some 127 := by
  rw [abs_eval, show (1 : ℚ) * 128 = 128 by norm_num,
    ratFloor_eq 128 128 (by norm_num) (by norm_num)]
  rfl

/-- The truncated value 64 of 259/4 = 64.75 (as the code computes it). -/
theorem floor_259_4 : ⌊(259 / 4 : ℚ)⌋ = 64 :=
  ratFloor_eq _ 64 (by norm_num) (by norm_num)

/-- The rounded value 65 of 259/4 = 64.75 (as the spec's formula demands). -/
theorem round_259_4 : round (259 / 4 : ℚ) = 65 :=
  ratRound_eq _ 65 (by norm_num) (by norm_num)

/-! ## Claims about the value normalizer -/

/-- Claim C1, counterexample: at the finite input 259/512 (an exact `f32`,
whose product with 128 is 64.75), `abs_float_to_midi` does not return the
spec's `clamp(round(pos * 128), 0, 127)`: the code truncates 64.75 to 64
while the spec's formula rounds it to 65. -/
theorem claim_C1_counterexample :
    abs_float_to_midi (F32.finite (259 / 512)) ≠ some (spec_abs_round (259 / 512)) := by
  rw [abs_eval]
  simp only [spec_abs_round]
  rw [show (259 / 512 : ℚ) * 128 = 259 / 4 by norm_num, floor_259_4, round_259_4]
  decide

/-- Claim C1, amended: for every finite float input `pos`,
`abs_float_to_midi` returns `clamp(trunc(pos * 128), 0, 127)`, where `trunc`
is the saturating truncate-toward-zero float-to-byte cast — truncation, not
round-to-nearest. -/
theorem claim_C1 (q : ℚ) :
    abs_float_to_midi (F32.finite q) = some (min 127 (Int.toNat ⌊q * 128⌋)) :=
  abs_eval q

/-- Claim C2, counterexample: at the finite input 3/256 (an exact `f32`, for
which 64 + pos * 64 = 64.75 exactly), `centered_float_to_midi` does not
return the spec's `clamp(round(64 + pos * 64), 0, 127)`: the code truncates
64.75 to 64 while the spec's formula rounds it to 65. -/
theorem claim_C2_counterexample :
    centered_float_to_midi (F32.finite (3 / 256)) ≠ some (spec_centered_round (3 / 256)) := by
  rw [centered_eval]
  simp only [spec_centered_round]
  rw [show (64 : ℚ) + 3 / 256 * 64 = 259 / 4 by norm_num, floor_259_4, round_259_4]
  decide

/-- Claim C2, amended: for every finite float input `pos`,
`centered_float_to_midi` returns `clamp(trunc(64 + pos * 64), 0, 127)` with
`trunc` the saturating truncate-toward-zero cast (not round-to-nearest); in
particular the result at 0 is 64, at -1 it is 0, at 1 it is 127, and for
`pos` in [-1, 1] the result is a value in [0, 127]. -/
theorem claim_C2 :
    (∀ q : ℚ, centered_float_to_midi (F32.finite q)
        = some (min 127 (Int.toNat ⌊64 + q * 64⌋))) ∧
    centered_float_to_midi (F32.finite 0) = some 64 ∧
    centered_float_to_midi (F32.finite (-1)) = some 0 ∧
    centered_float_to_midi (F32.finite 1) = some 127 ∧
    (∀ q : ℚ, -1 ≤ q → q ≤ 1 →
      ∃ v, centered_float_to_midi (F32.finite q) = some v ∧ v ≤ 127) := by
  refine ⟨centered_eval, ?_, ?_, ?_, ?_⟩
  · rw [centered_eval, show (64 : ℚ) + 0 * 64 = 64 by norm_num,
      ratFloor_eq 64 64 (by norm_num) (by norm_num)]
    rfl
  · rw [centered_eval, show (64 : ℚ) + (-1) * 64 = 0 by norm_num, Int.floor_zero]
    rfl
  · rw [centered_eval, show (64 : ℚ) + 1 * 64 = 128 by norm_num,
      ratFloor_eq 128 128 (by norm_num) (by norm_num)]
    rfl
  · intro q _ _
    exact ⟨_, centered_eval q, Nat.min_le_left _ _⟩

/-- Claim C2 witness: the in-range conjunct applied at the concrete input
1/2. -/
theorem claim_C2_witness :
    ∃ v, centered_float_to_midi (F32.finite (1 / 2)) = some v ∧ v ≤ 127 :=
  claim_C2.2.2.2.2 (1 / 2) (by norm_num) (by norm_num)

/-- Claim C3: both normalize functions are total and never fail — for every
float input, also outside the nominal range, the `U7` construction succeeds
and the returned value lies in [0, 127]. -/
theorem claim_C3 (pos : F32) :
    (∃ va, abs_float_to_midi pos = some va ∧ va ≤ 127) ∧
    (∃ vb, centered_float_to_midi pos = some vb ∧ vb ≤ 127) :=
  ⟨abs_isSome pos, centered_isSome pos⟩

/-- Claim C4: on [0, 1] the unsigned normalizer is monotonically
non-decreasing, its result lies in [0, 127], and it maps 0 to 0 and 1 to
127. -/
theorem claim_C4 (p q : ℚ) (_hp0 : 0 ≤ p) (_hp1 : p ≤ 1) (_hq0 : 0 ≤ q) (_hq1 : q ≤ 1)
    (hpq : p ≤ q) :
    ∃ vp vq, abs_float_to_midi (F32.finite p) = some vp ∧
      abs_float_to_midi (F32.finite q) = some vq ∧
      vp ≤ vq ∧ vq ≤ 127 ∧
      abs_float_to_midi (F32.finite 0) = some 0 ∧
      abs_float_to_midi (F32.finite 1) = some 127 := by
  refine ⟨_, _, abs_eval p, abs_eval q, ?_, Nat.min_le_left _ _, abs_zero_eval, abs_one_eval⟩
  have hmul : p * 128 ≤ q * 128 :=
    mul_le_mul_of_nonneg_right hpq (by norm_num)
  exact min_le_min (le_refl 127) (Int.toNat_le_toNat (Int.floor_mono hmul))

/-- Claim C4 witness: the monotonicity statement applied at the endpoints 0
and 1. -/
theorem claim_C4_witness :
    ∃ vp vq, abs_float_to_midi (F32.finite 0) = some vp ∧
      abs_float_to_midi (F32.finite 1) = some vq ∧
      vp ≤ vq ∧ vq ≤ 127 ∧
      abs_float_to_midi (F32.finite 0) = some 0 ∧
      abs_float_to_midi (F32.finite 1) = some 127 :=
  claim_C4 0 1 (by norm_num) (by norm_num) (by norm_num) (by norm_num) (by norm_num)

/-- Claim C9: the lower-bound clamp `.max(0)` on the already-unsigned byte is
a no-op — each normalizer equals the same function with the `.max(0)` step
removed, on every float input. -/
theorem claim_C9 (pos : F32) :
    abs_float_to_midi pos = abs_float_to_midi_nomax pos ∧
    centered_float_to_midi pos = centered_float_to_midi_nomax pos := by
  constructor <;>
    simp only [abs_float_to_midi, abs_float_to_midi_nomax, centered_float_to_midi,
      centered_float_to_midi_nomax, Nat.max_zero]

/-- Claim C10: on the non-finite float inputs (left unspecified by the spec)
the saturating cast sends NaN to 0, +inf to 127 and -inf to 0 in both
normalizers, and on every possible input the `U7` construction succeeds with
a 7-bit value. -/
theorem claim_C10 :
    abs_float_to_midi F32.nan = some 0 ∧
    abs_float_to_midi F32.inf = some 127 ∧
    abs_float_to_midi F32.neginf = some 0 ∧
    centered_float_to_midi F32.nan = some 0 ∧
    centered_float_to_midi F32.inf = some 127 ∧
    centered_float_to_midi F32.neginf = some 0 ∧
    (∀ pos, ∃ v, abs_float_to_midi pos = some v ∧ v ≤ 127) ∧
    (∀ pos, ∃ v, centered_float_to_midi pos = some v ∧ v ≤ 127) :=
  ⟨rfl, rfl, rfl, rfl, rfl, rfl, abs_isSome, centered_isSome⟩

/-! ## Claims about the event translator and dispatch loop -/

/-- Claim C5: for every button mapped in the button→note table, a pressed
event translates to a note-on with the mapped note and fixed velocity 80,
and a released event to a note-off with the same note and velocity 80. -/
theorem claim_C5 (cfg : Config) (btn : Button) (note : Note) (code : ℕ)
    (h : cfg.keys.lookup btn = some note) :
    translateEvent cfg (.ButtonPressed btn code)
      = some (.NoteOn cfg.output_midi_channel note 80) ∧
    translateEvent cfg (.ButtonReleased btn code)
      = some (.NoteOff cfg.output_midi_channel note 80) := by
  constructor <;> simp [translateEvent, h, U7.tryFrom]

/-- Claim C5 witness: the South button of the default configuration. -/
theorem claim_C5_witness :
    translateEvent Config.default (.ButtonPressed Button.South 0)
      = some (.NoteOn Config.default.output_midi_channel Note.E1 80) ∧
    translateEvent Config.default (.ButtonReleased Button.South 0)
      = some (.NoteOff Config.default.output_midi_channel Note.E1 80) :=
  claim_C5 Config.default Button.South Note.E1 0 (by decide)

/-- Claim C6: a control absent from all three mapping tables yields no
message under every event kind, as an optional `none` rather than an
error. -/
theorem claim_C6 (cfg : Config) (btn : Button) (ax : Axis)
    (hk : cfg.keys.lookup btn = none)
    (ha : cfg.analog_button_ccs.lookup btn = none)
    (hx : cfg.axis_ccs.lookup ax = none) :
    ∀ (pos : F32) (code : ℕ),
      translateEvent cfg (.ButtonChanged btn pos code) = none ∧
      translateEvent cfg (.ButtonPressed btn code) = none ∧
      translateEvent cfg (.ButtonReleased btn code) = none ∧
      translateEvent cfg (.AxisChanged ax pos code) = none ∧
      translateEvent cfg (.ButtonRepeated btn code) = none ∧
      translateEvent cfg .Connected = none ∧
      translateEvent cfg .Disconnected = none ∧
      translateEvent cfg .Dropped = none := by
  intro pos code
  refine ⟨?_, ?_, ?_, ?_, rfl, rfl, rfl, rfl⟩ <;>
    simp [translateEvent, hk, ha, hx]

/-- Claim C6 witness: the unmapped `C` button and `LeftZ` axis of the default
configuration. -/
theorem claim_C6_witness :
    translateEvent Config.default (.ButtonChanged Button.C F32.nan 0) = none ∧
    translateEvent Config.default (.ButtonPressed Button.C 0) = none ∧
    translateEvent Config.default (.ButtonReleased Button.C 0) = none ∧
    translateEvent Config.default (.AxisChanged Axis.LeftZ F32.nan 0) = none ∧
    translateEvent Config.default (.ButtonRepeated Button.C 0) = none ∧
    translateEvent Config.default .Connected = none ∧
    translateEvent Config.default .Disconnected = none ∧
    translateEvent Config.default .Dropped = none :=
  claim_C6 Config.default Button.C Axis.LeftZ (by decide) (by decide) (by decide) F32.nan 0

/-- Claim C7: every message the translator produces, on any branch, carries
the configuration-wide output channel. -/
theorem claim_C7 (cfg : Config) (e : EventType) (mm : MidiMessage)
    (h : translateEvent cfg e = some mm) :
    mm.channel = cfg.output_midi_channel := by
  unfold translateEvent at h
  split at h <;> try exact Option.noConfusion h
  all_goals
    split at h
    · injection h with h
      subst h
      rfl
    · exact Option.noConfusion h

/-- Claim C7 witness: the note-on produced for the pressed South button
carries the default configuration's channel. -/
theorem claim_C7_witness :
    MidiMessage.channel (.NoteOn Channel.Ch15 Note.E1 80)
      = Config.default.output_midi_channel :=
  claim_C7 Config.default (.ButtonPressed Button.South 0)
    (.NoteOn Channel.Ch15 Note.E1 80) (by decide)

/-- One dispatch pass with no transport connected sends nothing. -/
theorem dispatch_disconnected (cfg : Config) (events : List EventType) :
    dispatchEvents cfg false events = [] := by
  induction events with
  | nil => rfl
  | cons e rest ih =>
      cases h : translateEvent cfg e <;>
        simp [dispatchEvents, h, ih]

/-- Claim C8: when every event of a batch translates to a message, a
connected dispatch pass emits exactly the framed buffers of those messages in
source order — no reordering, batching or coalescing — and a disconnected
pass silently drops everything. -/
theorem claim_C8 (cfg : Config) (events : List EventType) (msgs : List MidiMessage)
    (h : events.map (translateEvent cfg) = msgs.map some) :
    dispatchEvents cfg true events = msgs.map MidiMessage.toBytes ∧
    dispatchEvents cfg false events = [] := by
  refine ⟨?_, dispatch_disconnected cfg events⟩
  induction events generalizing msgs with
  | nil =>
      cases msgs with
      | nil => rfl
      | cons m ms => simp at h
  | cons e rest ih =>
      cases msgs with
      | nil => simp at h
      | cons m ms =>
          simp only [List.map_cons, List.cons.injEq] at h
          obtain ⟨h1, h2⟩ := h
          simp [dispatchEvents, h1, ih ms h2]

/-- Claim C8 witness: a press-then-release batch on the default
configuration, dispatched connected and disconnected. -/
theorem claim_C8_witness :
    dispatchEvents Config.default true
      [.ButtonPressed Button.South 0, .ButtonReleased Button.South 0]
      = [MidiMessage.toBytes (.NoteOn Channel.Ch15 Note.E1 80),
         MidiMessage.toBytes (.NoteOff Channel.Ch15 Note.E1 80)] ∧
    dispatchEvents Config.default false
      [.ButtonPressed Button.South 0, .ButtonReleased Button.South 0] = [] :=
  claim_C8 Config.default
    [.ButtonPressed Button.South 0, .ButtonReleased Button.South 0]
    [.NoteOn Channel.Ch15 Note.E1 80, .NoteOff Channel.Ch15 Note.E1 80] (by decide)
